import Mathlib

/-
Verification of the data-cleaning rule engine of the brightwind repository
(brightwind/load/load.py and brightwind/utils/utils.py).

Shallow embedding conventions:
- A pandas DataFrame with a datetime index is modelled as a `DataFrame`:
  a list of timestamps (the index, timestamps modelled as integers), a list of
  column names, and a total cell function keyed by timestamp and column name.
  Cells at keys outside the index or the column list are phantom values that no
  claim observes.  The engine only ever assigns with
  `data.loc[boolean mask over the existing index, existing column] = value`,
  which mutates cell values and never the index or the column list, so a cell
  update models it faithfully.
- Cell values of the conditional-rule dialect are `Val := Option Rat`;
  `none` models the not-a-number sentinel (np.nan).  Pandas comparison
  semantics on NaN are mirrored in `opEval`: every comparison with NaN is
  False except not-equal, which is True.
- `datetime.datetime.today()` (used by `_if_null_max_the_date`) is passed in
  explicitly as the `today` parameter.  `datetime.datetime(1900, 1, 1)` is the
  integer timestamp `epoch1900 = 0`; dataset timestamps are integers relative
  to that origin.
- Python reference semantics for the `inplace` flag are modelled by returning
  a pair: the first component is the state of the caller's original DataFrame
  object after the call, the second is the value the function returns
  (`data = data.copy(deep=True)` when `inplace` is False makes the working
  frame independent of the caller's object, so in that mode the first
  component is the untouched original).
- File loading (`load_cleaning_file`, `pandas.read_csv`) is I/O and is kept
  outside the model: a loader function parameter stands for it where the code
  dispatches on a file-path argument, and the flag-log facade receives the
  already-parsed log rows.
- The JSON-Schema validator (`jsonschema.Draft7Validator`, driven by
  `utils.validate_json`) is an external library run against a schema file that
  is not part of the sources; the engine facade is therefore parametrised by a
  `validator` function returning the list of violations for one rule document,
  each violation carrying the path / message / schema_path fields that
  `validate_json` builds for every error (utils.py lines 238-244).
-/

/-- Cell values: `none` is the NaN sentinel, `some q` a numeric value. -/
abbrev Val := Option ℚ

/-- A pandas DataFrame with a datetime index: index timestamps (as integers),
column names, and the cell contents. -/
@[ext]
structure DataFrame (α : Type) where
  index : List ℤ
  columns : List String
  cell : ℤ → String → α

/-- One assignment `df.loc[mask, col] = v`: every cell of column `col` at a
masked timestamp receives `v`; every other cell is unchanged. -/
def writeMask (mask : ℤ → Bool) (col : String) (v : α) (df : DataFrame α) : DataFrame α :=
  { df with cell := fun t c => if c = col ∧ mask t = true then v else df.cell t c }

/-- Assigning `v` under `mask` into each column of `cols` in turn. -/
def writeCols (mask : ℤ → Bool) (v : α) (df : DataFrame α) (cols : List String) : DataFrame α :=
  cols.foldl (fun acc col => writeMask mask col v acc) df

/-- load.py line 2177, `_if_null_max_the_date`: a null `date_from` becomes
1900-01-01 (`epoch1900`) and a null `date_to` becomes `datetime.today()`
(the explicit `today` parameter). -/
def epoch1900 : ℤ := 0

def _if_null_max_the_date (today : ℤ) (date_from date_to : Option ℤ) : ℤ × ℤ :=
  (date_from.getD epoch1900, date_to.getD today)

/-- Python `col.find(sel) == 0`: `sel` is a prefix of `col`, computed on the
character lists (an empty selector matches every column, as in the source). -/
def strStarts (col sel : String) : Bool :=
  sel.toList.isPrefixOf col.toList

/-- One row of a cleaning file (load.py `apply_cleaning` dialect): the Sensor
selector and the optional Start / Stop timestamps; a `none` bound is a null
(NaT) entry of the loaded cleaning DataFrame. -/
structure CleaningRow where
  sensor : String
  dateFrom : Option ℤ
  dateTo : Option ℤ

/-- The row mask of `apply_cleaning` / `apply_cleaning_windographer`:
`(data.index >= date_from) & (data.index < date_to)` over rows of the frame. -/
def intervalMask (df : DataFrame α) (d1 d2 : ℤ) (t : ℤ) : Bool :=
  decide (t ∈ df.index) && decide (d1 ≤ t) && decide (t < d2)

/-- Body of the `apply_cleaning` loop (load.py lines 2317-2327) for one row of
the cleaning file: resolve the dates through `_if_null_max_the_date`, then
either write every column (sensor equal to the all-sensors descriptor) or
every column whose name starts with the sensor string
(`col.find(sensor) == 0`). -/
def applyCleaningRow (today : ℤ) (allDesc : String) (repl : α) (df : DataFrame α)
    (r : CleaningRow) : DataFrame α :=
  if r.sensor = allDesc then
    writeCols
      (intervalMask df (_if_null_max_the_date today r.dateFrom r.dateTo).1
        (_if_null_max_the_date today r.dateFrom r.dateTo).2) repl df df.columns
  else
    writeCols
      (intervalMask df (_if_null_max_the_date today r.dateFrom r.dateTo).1
        (_if_null_max_the_date today r.dateFrom r.dateTo).2) repl df
      (df.columns.filter (fun col => strStarts col r.sensor))

/-- The full `apply_cleaning` loop: rows of the cleaning file applied strictly
in file order. -/
def apply_cleaning_core (today : ℤ) (allDesc : String) (repl : α) (df : DataFrame α)
    (rows : List CleaningRow) : DataFrame α :=
  rows.foldl (applyCleaningRow today allDesc repl) df

/-- Whether the `apply_cleaning` row `r` writes the cell `(t, c)`: the cell
must exist (its column among the data columns, its timestamp in the index),
the column must be selected (all-sensors descriptor or name starting with the
sensor string), and the timestamp must pass the date filter. -/
def rowMask (today : ℤ) (allDesc : String) (df : DataFrame α) (r : CleaningRow)
    (t : ℤ) (c : String) : Bool :=
  decide (c ∈ df.columns) && (decide (r.sensor = allDesc) || strStarts c r.sensor)
    && intervalMask df (_if_null_max_the_date today r.dateFrom r.dateTo).1
        (_if_null_max_the_date today r.dateFrom r.dateTo).2 t

/-- The `cleaning_file_or_df` argument of `apply_cleaning`: a file path
string, an in-memory cleaning DataFrame (its parsed rows), or a value of any
other type. -/
inductive CleaningInput where
  | path (filepath : String)
  | frame (rows : List CleaningRow)
  | other

/-- What `apply_cleaning` hands back: the cleaned DataFrame, or - for an
unrecognised `cleaning_file_or_df` - a TypeError exception object returned
(not raised) as the value of the call (load.py line 2312). -/
inductive PyResult (α : Type) where
  | frame (df : DataFrame α)
  | typeErrorValue (msg : String)

/-- load.py `apply_cleaning` (lines 2304-2329).  `loadFile` stands for
`load_cleaning_file` on a path input; `repl` is `replacement_text` after the
string NaN has been turned into np.nan.  The result pair is
(caller's original object after the call, returned value): with
`inplace = False` the work happens on a deep copy, so the original is
unchanged; with `inplace = True` the original itself is mutated and
returned. -/
def apply_cleaning_py (loadFile : String → List CleaningRow) (today : ℤ)
    (data : DataFrame α) (input : CleaningInput) (inplace : Bool)
    (allDesc : String) (repl : α) : DataFrame α × PyResult α :=
  match input with
  | .path fp =>
      if inplace then
        (apply_cleaning_core today allDesc repl data (loadFile fp),
         .frame (apply_cleaning_core today allDesc repl data (loadFile fp)))
      else
        (data, .frame (apply_cleaning_core today allDesc repl data (loadFile fp)))
  | .frame rows =>
      if inplace then
        (apply_cleaning_core today allDesc repl data rows,
         .frame (apply_cleaning_core today allDesc repl data rows))
      else
        (data, .frame (apply_cleaning_core today allDesc repl data rows))
  | .other =>
      (data, .typeErrorValue
        "Cannot recognise the cleaning_file_or_df. Please make sure it is a file path or a DataFrame.")

/-- One row of a Windographer flagging log: Data Column, Flag Name, and the
Start Time / End Time bounds. -/
structure WindogRow where
  dataColumn : String
  flagName : String
  startT : Option ℤ
  endT : Option ℤ

/-- Body of the `apply_cleaning_windographer` loop (load.py lines 2548-2556)
for one log row: columns whose name starts with the Data Column string are
written over the date filter, unless the row's flag is in `flagsToExclude`
(the flag test sits inside the column loop in the source but depends only on
the row, so it is hoisted in front of the writes). -/
def applyWindogRow (today : ℤ) (flagsToExclude : List String) (repl : α)
    (df : DataFrame α) (r : WindogRow) : DataFrame α :=
  if r.flagName ∈ flagsToExclude then df
  else
    writeCols
      (intervalMask df (_if_null_max_the_date today r.startT r.endT).1
        (_if_null_max_the_date today r.startT r.endT).2) repl df
      (df.columns.filter (fun col => strStarts col r.dataColumn))

/-- The full `apply_cleaning_windographer` loop over the parsed flagging log. -/
def apply_windographer_core (today : ℤ) (flagsToExclude : List String) (repl : α)
    (df : DataFrame α) (rows : List WindogRow) : DataFrame α :=
  rows.foldl (applyWindogRow today flagsToExclude repl) df

/-- load.py `apply_cleaning_windographer` (lines 2480-2558) at the call
boundary, taking the already-parsed log rows (the file read is I/O).  Result
pair as in `apply_cleaning_py`; the function always returns the cleaned
frame. -/
def apply_cleaning_windographer_py (today : ℤ) (data : DataFrame α)
    (rows : List WindogRow) (inplace : Bool) (flagsToExclude : List String)
    (repl : α) : DataFrame α × DataFrame α :=
  if inplace then
    (apply_windographer_core today flagsToExclude repl data rows,
     apply_windographer_core today flagsToExclude repl data rows)
  else
    (data, apply_windographer_core today flagsToExclude repl data rows)

/-- The operator codes that `OPERATOR_DICT` (load.py lines 34-41) maps to
executable predicates; any other code raises a KeyError at lookup. -/
def OPERATOR_IDS : List ℕ := [1, 2, 3, 4, 5, 6]

/-- Element-wise evaluation of `OPERATOR_DICT[id](cell, threshold)` for one
cell, with the pandas NaN semantics: a NaN cell compares False under every
operator except not-equal, which gives True. -/
def opEval (id : ℕ) (x : Val) (threshold : ℚ) : Bool :=
  match x with
  | none => id == 6
  | some a =>
      if id = 1 then decide (a < threshold)
      else if id = 2 then decide (a ≤ threshold)
      else if id = 3 then decide (threshold < a)
      else if id = 4 then decide (threshold ≤ a)
      else if id = 5 then decide (a = threshold)
      else if id = 6 then decide (a ≠ threshold)
      else false

/-- Python substring containment `needle in hay` on lists of characters. -/
def subFrom : List Char → List Char → Bool
  | needle, [] => needle.isEmpty
  | needle, c :: rest => needle.isPrefixOf (c :: rest) || subFrom needle rest

/-- Python `needle in hay` on strings (the containment test of
load.py line 2468, `column_to_clean in column_name`). -/
def strContainsSub (hay needle : String) : Bool :=
  subFrom needle.toList hay.toList

/-- The final mask of `_apply_cleaning_rule` for one cell:
`mask & date_filter`, where `mask = op(df[condition_col], comparator_value)`
and `date_filter` is `(index >= date_from) & (index < date_to)` when a
`date_to` is given (truthy) and `index >= date_from` alone otherwise
(load.py lines 2367-2375). -/
def ruleMask (df : DataFrame Val) (condition_col : String) (opid : ℕ) (cv : ℚ)
    (date_from : ℤ) (date_to : Option ℤ) (t : ℤ) : Bool :=
  opEval opid (df.cell t condition_col) cv
    && (decide (t ∈ df.index) && decide (date_from ≤ t)
        && (match date_to with
            | none => true
            | some d => decide (t < d)))

/-- The two KeyErrors `_apply_cleaning_rule` can raise, in source order: a
comparison_operator_id outside `OPERATOR_DICT` (line 2367), then a condition
column absent from the DataFrame (line 2368); each carries the missing key. -/
inductive RuleError where
  | opKeyError (id : ℕ)
  | colKeyError (col : String)
deriving DecidableEq

/-- load.py `_apply_cleaning_rule` (lines 2332-2378): look up the operator,
build the condition mask from the condition column of the incoming frame,
conjoin the date filter, and write the replacement into each target column at the
masked positions.  The mask is computed once, before any write, so targets
listed after the condition column see the original condition values. -/
def _apply_cleaning_rule (df : DataFrame Val) (condition_col : String)
    (target_cols : List String) (comparator_value : ℚ)
    (comparison_operator_id : ℕ) (replacement_value : Val)
    (date_from : ℤ) (date_to : Option ℤ) : Except RuleError (DataFrame Val) :=
  if comparison_operator_id ∈ OPERATOR_IDS then
    if condition_col ∈ df.columns then
      .ok (writeCols
        (ruleMask df condition_col comparison_operator_id comparator_value date_from date_to)
        replacement_value df target_cols)
    else .error (.colKeyError condition_col)
  else .error (.opKeyError comparison_operator_id)

/-- The `conditions` object of one cleaning rule document. -/
structure Conditions where
  assembled_column_name : String
  comparator_value : ℚ
  comparison_operator_id : ℕ
deriving DecidableEq

/-- One structured cleaning-rule document (the fields of `rule` that
`apply_cleaning_rules` reads): the clean_out target selectors, the optional
date bounds, and the condition triple. -/
structure CleaningRule where
  clean_out : List String
  date_from : Option ℤ
  date_to : Option ℤ
  conditions : Conditions
deriving DecidableEq

/-- The body of the `apply_cleaning_rules` loop for one rule (load.py lines
2463-2475): resolve the targets by containment of each clean_out selector in
the data column names (selector-major order), default a missing date_from to
the first index entry, keep date_to as given, and call
`_apply_cleaning_rule`. -/
def applyRuleStep (repl : Val) (df : DataFrame Val) (rule : CleaningRule) :
    Except RuleError (DataFrame Val) :=
  _apply_cleaning_rule df rule.conditions.assembled_column_name
    (rule.clean_out.flatMap (fun sel => df.columns.filter (fun c => strContainsSub c sel)))
    rule.conditions.comparator_value rule.conditions.comparison_operator_id repl
    (rule.date_from.getD (df.index.headD 0)) rule.date_to

/-- The frame produced by one successful `applyRuleStep` (its `.ok` payload). -/
def applyRuleOk (repl : Val) (df : DataFrame Val) (rule : CleaningRule) : DataFrame Val :=
  writeCols
    (ruleMask df rule.conditions.assembled_column_name
      rule.conditions.comparison_operator_id rule.conditions.comparator_value
      (rule.date_from.getD (df.index.headD 0)) rule.date_to)
    repl df
    (rule.clean_out.flatMap (fun sel => df.columns.filter (fun c => strContainsSub c sel)))

/-- The `apply_cleaning_rules` execution loop: rules in source order, stopping
at the first KeyError; the result is the frame as mutated up to the abort
point together with the error, if any (there is no rollback). -/
def runCleaningRules (repl : Val) : DataFrame Val → List CleaningRule →
    DataFrame Val × Option RuleError
  | df, [] => (df, none)
  | df, r :: rest =>
      match applyRuleStep repl df r with
      | .ok df2 => runCleaningRules repl df2 rest
      | .error e => (df, some e)

/-- One schema violation as `utils.validate_json` reports it (utils.py lines
238-244): the dot/arrow-joined field path, the message, and the schema path. -/
structure ValidationIssue where
  path : String
  message : String
  schema_path : String
deriving DecidableEq

/-- The outcome of an `apply_cleaning_rules` call: a normal return (whose
payload is None when `inplace` is True, line 2476), the aggregate ValueError
raised after schema validation (carrying every violation printed by
`validate_json` over every rule), or a KeyError escaping from
`_apply_cleaning_rule`. -/
inductive RulesOutcome where
  | ok (ret : Option (DataFrame Val))
  | validationError (issues : List ValidationIssue)
  | keyError (e : RuleError)

/-- Whether an `apply_cleaning_rules` call handed a DataFrame back to the
caller as its return value. -/
def rulesReturnsFrame : RulesOutcome → Bool
  | .ok (some _) => true
  | _ => false

/-- load.py `apply_cleaning_rules` (lines 2436-2477).  `validator r` stands
for the violations `Draft7Validator(cleaning_rules_schema).iter_errors`
yields on rule `r`; the source loops `validate_json` over every rule without
stopping, so the flag it raises the ValueError on equals the non-emptiness of
the concatenated violation lists.  Validation happens before any mutation;
afterwards the rules run in order, and with `inplace = False` the function
returns the cleaned copy while `inplace = True` mutates the original and
falls off the end (returning None). -/
def apply_cleaning_rules_py (validator : CleaningRule → List ValidationIssue)
    (inplace : Bool) (data : DataFrame Val) (rules : List CleaningRule)
    (repl : Val) : DataFrame Val × RulesOutcome :=
  if (rules.flatMap validator).isEmpty then
    match runCleaningRules repl data rules with
    | (final, some e) => (if inplace then final else data, .keyError e)
    | (final, none) =>
        if inplace then (final, .ok none) else (data, .ok (some final))
  else
    (data, .validationError (rules.flatMap validator))

/-- The per-rule success precondition of the execution loop: the operator
code is a key of `OPERATOR_DICT` and the condition column exists among the
given data column names. -/
def condOk (cols : List String) (r : CleaningRule) : Prop :=
  r.conditions.comparison_operator_id ∈ OPERATOR_IDS
    ∧ r.conditions.assembled_column_name ∈ cols

instance (cols : List String) (r : CleaningRule) : Decidable (condOk cols r) := by
  unfold condOk
  infer_instance

/-- A small numeric dataset (two timestamps, one wind-speed column) used to
evaluate the embedding on concrete inputs; its second timestamp, 150, lies
beyond the wall-clock value 100 used for `datetime.today()` in the concrete
runs below. -/
def dfC2 : DataFrame ℚ := ⟨[0, 150], ["Spd80mN"], fun _ _ => 5⟩

/-- A cleaning-file row with an empty Stop entry. -/
def rowC2 : CleaningRow := ⟨"Spd80mN", some 0, none⟩

/-- A small dataset with NaN-capable cells for the conditional dialect. -/
def dfC3 : DataFrame Val := ⟨[0, 1], ["Spd80mN"], fun _ _ => some 1⟩

/-- A well-formed conditional rule: clean Spd80mN where Spd80mN < 2. -/
def ruleC3 : CleaningRule := ⟨["Spd80mN"], none, none, ⟨"Spd80mN", 2, 1⟩⟩

/-- A conditional rule whose condition column Spd999 is not in the dataset. -/
def ruleBad : CleaningRule := ⟨["Spd80mN"], none, none, ⟨"Spd999", 2, 1⟩⟩

/-- A validator reporting one violation for every document, as the external
Draft7Validator would on a rule missing a required property. -/
def valC4 : CleaningRule → List ValidationIssue :=
  fun _ => [⟨"rule", "clean_out is a required property", "required"⟩]

/-- A Windographer flagging-log row. -/
def rowW : WindogRow := ⟨"Spd80mN", "Icing", some 0, some 2⟩

theorem writeCols_nil (mask : ℤ → Bool) (v : α) (df : DataFrame α) :
    writeCols mask v df [] = df := rfl

theorem writeCols_cons (mask : ℤ → Bool) (v : α) (df : DataFrame α) (a : String)
    (as : List String) :
    writeCols mask v df (a :: as) = writeCols mask v (writeMask mask a v df) as := rfl

@[simp]
theorem writeMask_index (mask : ℤ → Bool) (col : String) (v : α) (df : DataFrame α) :
    (writeMask mask col v df).index = df.index := rfl

@[simp]
theorem writeMask_columns (mask : ℤ → Bool) (col : String) (v : α) (df : DataFrame α) :
    (writeMask mask col v df).columns = df.columns := rfl

@[simp]
theorem writeCols_index (mask : ℤ → Bool) (v : α) (df : DataFrame α) (cols : List String) :
    (writeCols mask v df cols).index = df.index := by
  induction cols generalizing df with
  | nil => rfl
  | cons a as ih => rw [writeCols_cons, ih, writeMask_index]

@[simp]
theorem writeCols_columns (mask : ℤ → Bool) (v : α) (df : DataFrame α) (cols : List String) :
    (writeCols mask v df cols).columns = df.columns := by
  induction cols generalizing df with
  | nil => rfl
  | cons a as ih => rw [writeCols_cons, ih, writeMask_columns]

theorem writeCols_cell (mask : ℤ → Bool) (v : α) (df : DataFrame α) (cols : List String)
    (t : ℤ) (c : String) :
    (writeCols mask v df cols).cell t c =
      if c ∈ cols ∧ mask t = true then v else df.cell t c := by
  induction cols generalizing df with
  | nil => simp [writeCols_nil]
  | cons a as ih =>
      rw [writeCols_cons, ih]
      by_cases hm : mask t = true
      · by_cases ha : c = a
        · subst ha
          by_cases hmem : c ∈ as <;> simp [writeMask, hmem, hm]
        · by_cases hmem : c ∈ as <;> simp [writeMask, hmem, hm, ha]
      · simp [writeMask, hm]

@[simp]
theorem applyCleaningRow_index (today : ℤ) (allDesc : String) (repl : α) (df : DataFrame α)
    (r : CleaningRow) : (applyCleaningRow today allDesc repl df r).index = df.index := by
  unfold applyCleaningRow
  split <;> simp

@[simp]
theorem applyCleaningRow_columns (today : ℤ) (allDesc : String) (repl : α) (df : DataFrame α)
    (r : CleaningRow) : (applyCleaningRow today allDesc repl df r).columns = df.columns := by
  unfold applyCleaningRow
  split <;> simp

theorem applyCleaningRow_cell (today : ℤ) (allDesc : String) (repl : α) (df : DataFrame α)
    (r : CleaningRow) (t : ℤ) (c : String) :
    (applyCleaningRow today allDesc repl df r).cell t c =
      if rowMask today allDesc df r t c = true then repl else df.cell t c := by
  unfold applyCleaningRow rowMask
  by_cases hs : r.sensor = allDesc
  · rw [if_pos hs, writeCols_cell]
    by_cases hc : c ∈ df.columns <;>
      by_cases hi : intervalMask df (_if_null_max_the_date today r.dateFrom r.dateTo).1
        (_if_null_max_the_date today r.dateFrom r.dateTo).2 t = true <;>
      simp [hs, hc, hi]
  · rw [if_neg hs, writeCols_cell]
    by_cases hc : c ∈ df.columns <;>
      by_cases hp : strStarts c r.sensor = true <;>
      by_cases hi : intervalMask df (_if_null_max_the_date today r.dateFrom r.dateTo).1
        (_if_null_max_the_date today r.dateFrom r.dateTo).2 t = true <;>
      simp [hs, hc, hp, hi, List.mem_filter]

theorem rowMask_congr (today : ℤ) (allDesc : String) (df df2 : DataFrame α)
    (r : CleaningRow) (t : ℤ) (c : String) (hidx : df2.index = df.index)
    (hcol : df2.columns = df.columns) :
    rowMask today allDesc df2 r t c = rowMask today allDesc df r t c := by
  simp [rowMask, intervalMask, hidx, hcol]

@[simp]
theorem apply_cleaning_core_index (today : ℤ) (allDesc : String) (repl : α)
    (df : DataFrame α) (rows : List CleaningRow) :
    (apply_cleaning_core today allDesc repl df rows).index = df.index := by
  induction rows generalizing df with
  | nil => rfl
  | cons a as ih =>
      show (apply_cleaning_core today allDesc repl (applyCleaningRow today allDesc repl df a) as).index = _
      rw [ih, applyCleaningRow_index]

@[simp]
theorem apply_cleaning_core_columns (today : ℤ) (allDesc : String) (repl : α)
    (df : DataFrame α) (rows : List CleaningRow) :
    (apply_cleaning_core today allDesc repl df rows).columns = df.columns := by
  induction rows generalizing df with
  | nil => rfl
  | cons a as ih =>
      show (apply_cleaning_core today allDesc repl (applyCleaningRow today allDesc repl df a) as).columns = _
      rw [ih, applyCleaningRow_columns]

theorem apply_cleaning_core_cell (today : ℤ) (allDesc : String) (repl : α)
    (df : DataFrame α) (rows : List CleaningRow) (t : ℤ) (c : String) :
    (apply_cleaning_core today allDesc repl df rows).cell t c =
      if rows.any (fun r => rowMask today allDesc df r t c) = true then repl
      else df.cell t c := by
  induction rows generalizing df with
  | nil => simp [apply_cleaning_core]
  | cons a as ih =>
      show (apply_cleaning_core today allDesc repl (applyCleaningRow today allDesc repl df a) as).cell t c = _
      rw [ih]
      have hrm : ∀ r : CleaningRow,
          rowMask today allDesc (applyCleaningRow today allDesc repl df a) r t c
            = rowMask today allDesc df r t c := by
        intro r
        exact rowMask_congr today allDesc df _ r t c (applyCleaningRow_index ..)
          (applyCleaningRow_columns ..)
      rw [applyCleaningRow_cell]
      by_cases ha : rowMask today allDesc df a t c = true <;>
        by_cases has : as.any (fun r => rowMask today allDesc df r t c) = true <;>
        simp [ha, has, hrm]

@[simp]
theorem applyWindogRow_index (today : ℤ) (fx : List String) (repl : α) (df : DataFrame α)
    (r : WindogRow) : (applyWindogRow today fx repl df r).index = df.index := by
  unfold applyWindogRow
  split <;> simp

@[simp]
theorem applyWindogRow_columns (today : ℤ) (fx : List String) (repl : α) (df : DataFrame α)
    (r : WindogRow) : (applyWindogRow today fx repl df r).columns = df.columns := by
  unfold applyWindogRow
  split <;> simp

@[simp]
theorem apply_windographer_core_index (today : ℤ) (fx : List String) (repl : α)
    (df : DataFrame α) (rows : List WindogRow) :
    (apply_windographer_core today fx repl df rows).index = df.index := by
  induction rows generalizing df with
  | nil => rfl
  | cons a as ih =>
      show (apply_windographer_core today fx repl (applyWindogRow today fx repl df a) as).index = _
      rw [ih, applyWindogRow_index]

@[simp]
theorem apply_windographer_core_columns (today : ℤ) (fx : List String) (repl : α)
    (df : DataFrame α) (rows : List WindogRow) :
    (apply_windographer_core today fx repl df rows).columns = df.columns := by
  induction rows generalizing df with
  | nil => rfl
  | cons a as ih =>
      show (apply_windographer_core today fx repl (applyWindogRow today fx repl df a) as).columns = _
      rw [ih, applyWindogRow_columns]

theorem applyRuleStep_ok (repl : Val) (df : DataFrame Val) (rule : CleaningRule)
    (h : condOk df.columns rule) :
    applyRuleStep repl df rule = .ok (applyRuleOk repl df rule) := by
  unfold applyRuleStep _apply_cleaning_rule applyRuleOk
  rw [if_pos h.1, if_pos h.2]

theorem applyRuleStep_colError (repl : Val) (df : DataFrame Val) (rule : CleaningRule)
    (hop : rule.conditions.comparison_operator_id ∈ OPERATOR_IDS)
    (hcol : rule.conditions.assembled_column_name ∉ df.columns) :
    applyRuleStep repl df rule
      = .error (.colKeyError rule.conditions.assembled_column_name) := by
  unfold applyRuleStep _apply_cleaning_rule
  rw [if_pos hop, if_neg hcol]

@[simp]
theorem applyRuleOk_index (repl : Val) (df : DataFrame Val) (rule : CleaningRule) :
    (applyRuleOk repl df rule).index = df.index := by
  unfold applyRuleOk
  simp

@[simp]
theorem applyRuleOk_columns (repl : Val) (df : DataFrame Val) (rule : CleaningRule) :
    (applyRuleOk repl df rule).columns = df.columns := by
  unfold applyRuleOk
  simp

theorem _apply_cleaning_rule_ok_shape (df df2 : DataFrame Val) (ccol : String)
    (tcols : List String) (cv : ℚ) (opid : ℕ) (repl : Val) (d1 : ℤ) (d2 : Option ℤ)
    (h : _apply_cleaning_rule df ccol tcols cv opid repl d1 d2 = .ok df2) :
    df2.index = df.index ∧ df2.columns = df.columns := by
  unfold _apply_cleaning_rule at h
  by_cases hop : opid ∈ OPERATOR_IDS
  · rw [if_pos hop] at h
    by_cases hcol : ccol ∈ df.columns
    · rw [if_pos hcol] at h
      cases h
      constructor <;> simp
    · rw [if_neg hcol] at h
      exact absurd h (by simp)
  · rw [if_neg hop] at h
    exact absurd h (by simp)

theorem runCleaningRules_cons (repl : Val) (df : DataFrame Val) (r : CleaningRule)
    (rest : List CleaningRule) :
    runCleaningRules repl df (r :: rest)
      = match applyRuleStep repl df r with
        | .ok df2 => runCleaningRules repl df2 rest
        | .error e => (df, some e) := rfl

theorem runCleaningRules_fst_index (repl : Val) (df : DataFrame Val)
    (rules : List CleaningRule) :
    (runCleaningRules repl df rules).1.index = df.index
      ∧ (runCleaningRules repl df rules).1.columns = df.columns := by
  induction rules generalizing df with
  | nil => exact ⟨rfl, rfl⟩
  | cons r rest ih =>
      rw [runCleaningRules_cons]
      cases hstep : applyRuleStep repl df r with
      | ok df2 =>
          have hshape := _apply_cleaning_rule_ok_shape df df2 _ _ _ _ _ _ _ hstep
          exact ⟨(ih df2).1.trans hshape.1, (ih df2).2.trans hshape.2⟩
      | error e => exact ⟨rfl, rfl⟩

theorem runCleaningRules_all_ok (repl : Val) (df : DataFrame Val)
    (rules : List CleaningRule) (h : ∀ r ∈ rules, condOk df.columns r) :
    runCleaningRules repl df rules
      = (rules.foldl (fun d r => applyRuleOk repl d r) df, none) := by
  induction rules generalizing df with
  | nil => rfl
  | cons r rest ih =>
      have hr : condOk df.columns r := h r (List.mem_cons_self r rest)
      rw [runCleaningRules_cons, applyRuleStep_ok repl df r hr]
      have hrest : ∀ x ∈ rest, condOk (applyRuleOk repl df r).columns x := by
        intro x hx
        rw [applyRuleOk_columns]
        exact h x (List.mem_cons_of_mem r hx)
      simpa using ih (applyRuleOk repl df r) hrest

theorem runCleaningRules_abort (repl : Val) (df : DataFrame Val)
    (pre : List CleaningRule) (bad : CleaningRule) (post : List CleaningRule)
    (hpre : ∀ r ∈ pre, condOk df.columns r)
    (hop : bad.conditions.comparison_operator_id ∈ OPERATOR_IDS)
    (hcol : bad.conditions.assembled_column_name ∉ df.columns) :
    runCleaningRules repl df (pre ++ bad :: post)
      = (pre.foldl (fun d r => applyRuleOk repl d r) df,
         some (.colKeyError bad.conditions.assembled_column_name)) := by
  induction pre generalizing df with
  | nil =>
      rw [List.nil_append, runCleaningRules_cons,
        applyRuleStep_colError repl df bad hop hcol]
      rfl
  | cons r rest ih =>
      have hr : condOk df.columns r := hpre r (List.mem_cons_self r rest)
      rw [List.cons_append, runCleaningRules_cons, applyRuleStep_ok repl df r hr]
      have hrest : ∀ x ∈ rest, condOk (applyRuleOk repl df r).columns x := by
        intro x hx
        rw [applyRuleOk_columns]
        exact hpre x (List.mem_cons_of_mem r hx)
      have hcol2 : bad.conditions.assembled_column_name ∉ (applyRuleOk repl df r).columns := by
        rw [applyRuleOk_columns]
        exact hcol
      simpa using ih (applyRuleOk repl df r) hrest hcol2

/-- C1: for every conditional rule executed by apply_cleaning_rules, a cell of
a resolved target column is set to the replacement value exactly when its
condition-column value satisfies the operator/threshold comparison and its
timestamp is at or after effective_from and, when a date_to is present, before
it; every other cell keeps its prior value.  `_apply_cleaning_rule`, run on a
valid operator code, an existing condition column and the resolved target
columns, returns the frame whose cells are given by that if-and-only-if mask
(`ruleMask` is the conjunction of the operator comparison and the date
filter), all other cells being the prior ones. -/
theorem c1_conditional_rule_cell_iff (df : DataFrame Val) (ccol : String)
    (tcols : List String) (cv : ℚ) (opid : ℕ) (repl : Val) (d1 : ℤ) (d2 : Option ℤ)
    (hop : opid ∈ OPERATOR_IDS) (hcol : ccol ∈ df.columns)
    (_htargets : ∀ c ∈ tcols, c ∈ df.columns) :
    _apply_cleaning_rule df ccol tcols cv opid repl d1 d2
      = .ok ⟨df.index, df.columns,
          fun t c => if c ∈ tcols ∧ ruleMask df ccol opid cv d1 d2 t = true
            then repl else df.cell t c⟩ := by
  unfold _apply_cleaning_rule
  rw [if_pos hop, if_pos hcol]
  congr 1
  apply DataFrame.ext
  · simp
  · simp
  · funext t c
    rw [writeCols_cell]

theorem c1_witness :
    _apply_cleaning_rule dfC3 "Spd80mN" ["Spd80mN"] 2 1 none 0 none
      = .ok ⟨dfC3.index, dfC3.columns,
          fun t c => if c ∈ ["Spd80mN"] ∧ ruleMask dfC3 "Spd80mN" 1 2 0 none t = true
            then none else dfC3.cell t c⟩ :=
  c1_conditional_rule_cell_iff dfC3 "Spd80mN" ["Spd80mN"] 2 1 none 0 none
    (by decide) (by decide) (by decide)

/-- C2 (code bug): the claim says a rule row with a null Stop cleans through
the last timestamp of the dataset no matter how late it is, and the docstring
of apply_cleaning (load.py line 2250) promises the same; but
`_if_null_max_the_date` substitutes `datetime.datetime.today()` for a null
`date_to`, and the mask then filters `index < today`.  Concretely: with the
wall clock at 100, dataset timestamps 0 and 150, and the row
(Sensor Spd80mN, Start 0, Stop null), the cell at timestamp 0 is replaced but
the matched cell at timestamp 150 keeps its value 5, contradicting the claim
and the docstring. -/
theorem c2_null_stop_cut_at_today :
    (apply_cleaning_core 100 "All" (99 : ℚ) dfC2 [rowC2]).cell 0 "Spd80mN" = 99
      ∧ (apply_cleaning_core 100 "All" (99 : ℚ) dfC2 [rowC2]).cell 150 "Spd80mN" = 5 := by
  constructor <;> decide

/-- C3 (counterexample): the claim says every apply function returns the
cleaned dataset when in-place mutation is requested, but `apply_cleaning_rules`
ends with `if inplace is False: return data` (load.py lines 2476-2477), so an
`inplace=True` call returns None.  Concretely: a call with a schema-valid rule
list on a dataset containing the condition column returns no DataFrame. -/
theorem c3_rules_inplace_returns_none :
    rulesReturnsFrame
      (apply_cleaning_rules_py (fun _ => []) true dfC3 [ruleC3] none).2 = false := by
  rfl

/-- C3 (amended): apply_cleaning and apply_cleaning_windographer return the
cleaned dataset in both modes - the mutated original with inplace=True, an
independently-copied cleaned frame (with the caller's original untouched) with
inplace=False.  apply_cleaning_rules mutates the original and returns the
cleaned copy only when inplace=False; with inplace=True it mutates the
original in place but returns None. -/
theorem c3_return_modes :
    (∀ (α : Type) (loadFile : String → List CleaningRow) (today : ℤ)
        (data : DataFrame α) (rows : List CleaningRow) (allDesc : String) (repl : α),
      apply_cleaning_py loadFile today data (.frame rows) true allDesc repl
          = (apply_cleaning_core today allDesc repl data rows,
             .frame (apply_cleaning_core today allDesc repl data rows))
        ∧ apply_cleaning_py loadFile today data (.frame rows) false allDesc repl
          = (data, .frame (apply_cleaning_core today allDesc repl data rows)))
    ∧ (∀ (α : Type) (today : ℤ) (data : DataFrame α) (rows : List WindogRow)
        (fx : List String) (repl : α),
      apply_cleaning_windographer_py today data rows true fx repl
          = (apply_windographer_core today fx repl data rows,
             apply_windographer_core today fx repl data rows)
        ∧ apply_cleaning_windographer_py today data rows false fx repl
          = (data, apply_windographer_core today fx repl data rows))
    ∧ (∀ (validator : CleaningRule → List ValidationIssue) (data : DataFrame Val)
        (rules : List CleaningRule) (repl : Val),
      (∀ r ∈ rules, validator r = []) →
      (∀ r ∈ rules, condOk data.columns r) →
      apply_cleaning_rules_py validator true data rules repl
          = (rules.foldl (fun d r => applyRuleOk repl d r) data, .ok none)
        ∧ apply_cleaning_rules_py validator false data rules repl
          = (data, .ok (some (rules.foldl (fun d r => applyRuleOk repl d r) data)))) := by
  refine ⟨fun α loadFile today data rows allDesc repl => ⟨rfl, rfl⟩,
    fun α today data rows fx repl => ⟨rfl, rfl⟩,
    fun validator data rules repl hv hc => ?_⟩
  have hflat : rules.flatMap validator = [] := List.flatMap_eq_nil_iff.mpr hv
  unfold apply_cleaning_rules_py
  rw [hflat, runCleaningRules_all_ok repl data rules hc]
  exact ⟨rfl, rfl⟩

theorem c3_return_modes_witness :
    (apply_cleaning_py (fun _ => []) 100 dfC2 (.frame [rowC2]) true "All" (99 : ℚ)
        = (apply_cleaning_core 100 "All" (99 : ℚ) dfC2 [rowC2],
           .frame (apply_cleaning_core 100 "All" (99 : ℚ) dfC2 [rowC2])))
    ∧ (apply_cleaning_windographer_py 100 dfC2 [rowW] false ["Synthesized"] (99 : ℚ)
        = (dfC2, apply_windographer_core 100 ["Synthesized"] (99 : ℚ) dfC2 [rowW]))
    ∧ (apply_cleaning_rules_py (fun _ => []) true dfC3 [ruleC3] none
        = ([ruleC3].foldl (fun d r => applyRuleOk none d r) dfC3, .ok none)) :=
  ⟨(c3_return_modes.1 ℚ (fun _ => []) 100 dfC2 [rowC2] "All" 99).1,
   (c3_return_modes.2.1 ℚ 100 dfC2 [rowW] ["Synthesized"] 99).2,
   (c3_return_modes.2.2 (fun _ => []) dfC3 [ruleC3] none
     (fun r _ => rfl) (by decide)).1⟩

/-- C4: if at least one rule document violates the schema, the call raises one
aggregate error, the violation lists of every rule in the document list are
collected (the validation loop never breaks, so the aggregate payload is the
concatenation over all rules, each violation a path/message/schema_path
record), and the dataset is returned untouched - validation happens before any
mutation, for either inplace mode. -/
theorem c4_validation_all_or_nothing (validator : CleaningRule → List ValidationIssue)
    (inplace : Bool) (data : DataFrame Val) (rules : List CleaningRule) (repl : Val)
    (h : ∃ r ∈ rules, validator r ≠ []) :
    apply_cleaning_rules_py validator inplace data rules repl
      = (data, .validationError (rules.flatMap validator)) := by
  obtain ⟨r, hr, hne⟩ := h
  obtain ⟨x, hx⟩ := List.exists_mem_of_ne_nil (validator r) hne
  have hmem : x ∈ rules.flatMap validator := List.mem_flatMap.mpr ⟨r, hr, hx⟩
  have hflat : (rules.flatMap validator).isEmpty = false :=
    List.isEmpty_eq_false.mpr (List.ne_nil_of_mem hmem)
  unfold apply_cleaning_rules_py
  rw [hflat]
  rfl

theorem c4_witness :
    apply_cleaning_rules_py valC4 true dfC3 [ruleC3] none
      = (dfC3, .validationError ([ruleC3].flatMap valC4)) :=
  c4_validation_all_or_nothing valC4 true dfC3 [ruleC3] none
    ⟨ruleC3, by decide, by decide⟩

/-- C5: none of the three apply functions ever adds, removes or reorders a row
or a column - the cleaning loops of every dialect, and the state of the
caller's object after each facade call, keep exactly the input's timestamp
index and column list; only cell values change.  (When the rules facade
returns a frame it is the first component of `runCleaningRules`, covered by
the third clause.) -/
theorem c5_index_and_columns_preserved :
    (∀ (α : Type) (today : ℤ) (allDesc : String) (repl : α) (df : DataFrame α)
        (rows : List CleaningRow),
      (apply_cleaning_core today allDesc repl df rows).index = df.index
        ∧ (apply_cleaning_core today allDesc repl df rows).columns = df.columns)
    ∧ (∀ (α : Type) (today : ℤ) (fx : List String) (repl : α) (df : DataFrame α)
        (rows : List WindogRow),
      (apply_windographer_core today fx repl df rows).index = df.index
        ∧ (apply_windographer_core today fx repl df rows).columns = df.columns)
    ∧ (∀ (repl : Val) (df : DataFrame Val) (rules : List CleaningRule),
      (runCleaningRules repl df rules).1.index = df.index
        ∧ (runCleaningRules repl df rules).1.columns = df.columns)
    ∧ (∀ (α : Type) (loadFile : String → List CleaningRow) (today : ℤ)
        (df : DataFrame α) (input : CleaningInput) (inplace : Bool)
        (allDesc : String) (repl : α),
      (apply_cleaning_py loadFile today df input inplace allDesc repl).1.index = df.index
        ∧ (apply_cleaning_py loadFile today df input inplace allDesc repl).1.columns
            = df.columns)
    ∧ (∀ (α : Type) (today : ℤ) (df : DataFrame α) (rows : List WindogRow)
        (inplace : Bool) (fx : List String) (repl : α),
      (apply_cleaning_windographer_py today df rows inplace fx repl).1.index = df.index
        ∧ (apply_cleaning_windographer_py today df rows inplace fx repl).1.columns
            = df.columns)
    ∧ (∀ (validator : CleaningRule → List ValidationIssue) (inplace : Bool)
        (df : DataFrame Val) (rules : List CleaningRule) (repl : Val),
      (apply_cleaning_rules_py validator inplace df rules repl).1.index = df.index
        ∧ (apply_cleaning_rules_py validator inplace df rules repl).1.columns
            = df.columns) := by
  refine ⟨fun α today allDesc repl df rows => ⟨by simp, by simp⟩,
    fun α today fx repl df rows => ⟨by simp, by simp⟩,
    fun repl df rules => runCleaningRules_fst_index repl df rules,
    fun α loadFile today df input inplace allDesc repl => ?_,
    fun α today df rows inplace fx repl => ?_,
    fun validator inplace df rules repl => ?_⟩
  · cases input <;> cases inplace <;> simp [apply_cleaning_py]
  · cases inplace <;> simp [apply_cleaning_windographer_py]
  · unfold apply_cleaning_rules_py
    by_cases hv : (rules.flatMap validator).isEmpty
    · rw [if_pos hv]
      have hrun := runCleaningRules_fst_index repl df rules
      rcases hres : runCleaningRules repl df rules with ⟨final, err⟩
      rw [hres] at hrun
      cases err with
      | none => cases inplace <;> simp_all
      | some e => cases inplace <;> simp_all
    · rw [if_neg hv]
      exact ⟨rfl, rfl⟩

/-- C6: a conditional rule whose condition column is missing from the dataset
makes `apply_cleaning_rules` fail with a KeyError naming that column (raised
when `df[condition_col]` is evaluated, before any write of that rule) rather
than skip the rule silently; the rules before it in the list have already been
applied and, with in-place mutation, their effects stay on the caller's
dataset - there is no rollback. -/
theorem c6_missing_condition_column (validator : CleaningRule → List ValidationIssue)
    (data : DataFrame Val) (repl : Val) (pre : List CleaningRule)
    (bad : CleaningRule) (post : List CleaningRule)
    (hv : ∀ r ∈ pre ++ bad :: post, validator r = [])
    (hpre : ∀ r ∈ pre, condOk data.columns r)
    (hop : bad.conditions.comparison_operator_id ∈ OPERATOR_IDS)
    (hcol : bad.conditions.assembled_column_name ∉ data.columns) :
    apply_cleaning_rules_py validator true data (pre ++ bad :: post) repl
      = (pre.foldl (fun d r => applyRuleOk repl d r) data,
         .keyError (.colKeyError bad.conditions.assembled_column_name)) := by
  have hflat : (pre ++ bad :: post).flatMap validator = [] :=
    List.flatMap_eq_nil_iff.mpr hv
  unfold apply_cleaning_rules_py
  rw [hflat, runCleaningRules_abort repl data pre bad post hpre hop hcol]
  rfl

theorem c6_witness :
    apply_cleaning_rules_py (fun _ => []) true dfC3 ([ruleC3] ++ ruleBad :: []) none
      = ([ruleC3].foldl (fun d r => applyRuleOk none d r) dfC3,
         .keyError (.colKeyError "Spd999")) :=
  c6_missing_condition_column (fun _ => []) dfC3 none [ruleC3] ruleBad []
    (fun r _ => rfl) (by decide) (by decide) (by decide)

/-- C7: interval rules are applied strictly in source order, so when two rules
carrying different replacement values both mask the same cell - each logical
rule executed through the interval engine with its own replacement value, as
the engine applies rules sequentially - the value left in that cell is the
later rule's replacement, whatever the earlier rule wrote. -/
theorem c7_later_rule_wins (α : Type) (today : ℤ) (allDesc : String) (v1 v2 : α)
    (df : DataFrame α) (r1 r2 : CleaningRow) (t : ℤ) (c : String)
    (_hne : v1 ≠ v2)
    (_h1 : rowMask today allDesc df r1 t c = true)
    (h2 : rowMask today allDesc df r2 t c = true) :
    (apply_cleaning_core today allDesc v2
      (apply_cleaning_core today allDesc v1 df [r1]) [r2]).cell t c = v2 := by
  rw [apply_cleaning_core_cell]
  have h2' : rowMask today allDesc (apply_cleaning_core today allDesc v1 df [r1]) r2 t c
      = true := by
    rw [rowMask_congr today allDesc df _ r2 t c (apply_cleaning_core_index ..)
      (apply_cleaning_core_columns ..)]
    exact h2
  simp [h2']

theorem c7_witness :
    (apply_cleaning_core 100 "All" (2 : ℚ)
      (apply_cleaning_core 100 "All" (1 : ℚ) dfC2 [⟨"Spd80mN", some 0, some 2⟩])
      [⟨"Spd", some 0, some 3⟩]).cell 0 "Spd80mN" = 2 :=
  c7_later_rule_wins ℚ 100 "All" 1 2 dfC2 ⟨"Spd80mN", some 0, some 2⟩
    ⟨"Spd", some 0, some 3⟩ 0 "Spd80mN" (by decide) (by decide) (by decide)

/-- C8: cleaning is idempotent - running the same interval rule set (with the
same effective bounds, i.e. the same wall-clock value behind
`_if_null_max_the_date`) over the already-cleaned dataset changes nothing,
because the masks depend only on the index and column names, which cleaning
preserves, and rewriting the same replacement value is stable. -/
theorem c8_apply_cleaning_idempotent (α : Type) (today : ℤ) (allDesc : String)
    (repl : α) (df : DataFrame α) (rows : List CleaningRow) :
    apply_cleaning_core today allDesc repl
        (apply_cleaning_core today allDesc repl df rows) rows
      = apply_cleaning_core today allDesc repl df rows := by
  apply DataFrame.ext
  · simp
  · simp
  · funext t c
    have hco : (fun r => rowMask today allDesc
          (apply_cleaning_core today allDesc repl df rows) r t c)
        = fun r => rowMask today allDesc df r t c :=
      funext fun r => rowMask_congr today allDesc df _ r t c
        (apply_cleaning_core_index ..) (apply_cleaning_core_columns ..)
    rw [apply_cleaning_core_cell, hco]
    by_cases h : rows.any (fun r => rowMask today allDesc df r t c) = true
    · rw [if_pos h]
      conv_rhs => rw [apply_cleaning_core_cell]
      rw [if_pos h]
    · rw [if_neg h]

/-- C9: a rule whose selector matches no dataset column (and is not the
all-sensors token) is a silent no-op in every dialect: the interval row writes
nothing when no column name starts with its sensor string; the flag-log row
likewise for its Data Column string; the conditional rule - given its
load-bearing condition column exists - succeeds untouched when no clean_out
selector is contained in any column name.  No error is raised and the frame
is returned exactly as it was. -/
theorem c9_unmatched_selector_noop :
    (∀ (α : Type) (today : ℤ) (allDesc : String) (repl : α) (df : DataFrame α)
        (r : CleaningRow),
      r.sensor ≠ allDesc →
      (∀ col ∈ df.columns, strStarts col r.sensor = false) →
      applyCleaningRow today allDesc repl df r = df)
    ∧ (∀ (α : Type) (today : ℤ) (fx : List String) (repl : α) (df : DataFrame α)
        (r : WindogRow),
      (∀ col ∈ df.columns, strStarts col r.dataColumn = false) →
      applyWindogRow today fx repl df r = df)
    ∧ (∀ (repl : Val) (df : DataFrame Val) (rule : CleaningRule),
      condOk df.columns rule →
      (∀ sel ∈ rule.clean_out, ∀ col ∈ df.columns, strContainsSub col sel = false) →
      applyRuleStep repl df rule = .ok df) := by
  refine ⟨fun α today allDesc repl df r hs hmatch => ?_,
    fun α today fx repl df r hmatch => ?_,
    fun repl df rule hcond hmatch => ?_⟩
  · unfold applyCleaningRow
    rw [if_neg hs]
    have hnil : df.columns.filter (fun col => strStarts col r.sensor) = [] :=
      List.filter_eq_nil_iff.mpr (fun a ha => by simp [hmatch a ha])
    rw [hnil, writeCols_nil]
  · unfold applyWindogRow
    by_cases hf : r.flagName ∈ fx
    · rw [if_pos hf]
    · rw [if_neg hf]
      have hnil : df.columns.filter (fun col => strStarts col r.dataColumn) = [] :=
        List.filter_eq_nil_iff.mpr (fun a ha => by simp [hmatch a ha])
      rw [hnil, writeCols_nil]
  · rw [applyRuleStep_ok repl df rule hcond]
    have hnil : rule.clean_out.flatMap
        (fun sel => df.columns.filter (fun c => strContainsSub c sel)) = [] :=
      List.flatMap_eq_nil_iff.mpr (fun sel hsel =>
        List.filter_eq_nil_iff.mpr (fun col hcol => by simp [hmatch sel hsel col hcol]))
    unfold applyRuleOk
    rw [hnil, writeCols_nil]

theorem c9_witness :
    (applyCleaningRow 100 "All" (99 : ℚ) dfC2 ⟨"Tmp", some 0, some 2⟩ = dfC2)
    ∧ (applyWindogRow 100 ["Synthesized"] (99 : ℚ) dfC2 ⟨"Tmp", "Icing", some 0, some 2⟩
        = dfC2)
    ∧ (applyRuleStep none dfC3 ⟨["Tmp"], none, none, ⟨"Spd80mN", 2, 1⟩⟩ = .ok dfC3) :=
  ⟨c9_unmatched_selector_noop.1 ℚ 100 "All" 99 dfC2 ⟨"Tmp", some 0, some 2⟩
      (by decide) (by decide),
   c9_unmatched_selector_noop.2.1 ℚ 100 ["Synthesized"] 99 dfC2
      ⟨"Tmp", "Icing", some 0, some 2⟩ (by decide),
   c9_unmatched_selector_noop.2.2 none dfC3 ⟨["Tmp"], none, none, ⟨"Spd80mN", 2, 1⟩⟩
      (by decide) (by decide)⟩

/-- C10: calling apply_cleaning with a `cleaning_file_or_df` that is neither a
path string nor a DataFrame raises nothing: the function returns a TypeError
exception object as its value (load.py line 2312, `return TypeError(...)`),
and for either inplace mode the caller's dataset - the original included when
inplace is True - is exactly as before the call. -/
theorem c10_type_error_returned (α : Type) (loadFile : String → List CleaningRow)
    (today : ℤ) (data : DataFrame α) (inplace : Bool) (allDesc : String) (repl : α) :
    apply_cleaning_py loadFile today data .other inplace allDesc repl
      = (data, .typeErrorValue
          "Cannot recognise the cleaning_file_or_df. Please make sure it is a file path or a DataFrame.") :=
  rfl
